import Mathlib

/-!
Verification of the program-classification and library-deduplication engine of
`CDVR_Support.py` (Channels-DVR-Manual-Recording).

The Python module manipulates JSON records; we embed them as structures whose
`Option` fields model the presence or absence of the corresponding JSON key.
Python `dict.get(k, None)` becomes a plain field read; Python `dict[k]` (which
raises `KeyError` when the key is missing) becomes `pyGet`, returning in the
`Except PyErr` monad.  Python truthiness of lists/strings (where `None`, `[]`
and `""` are all falsy) is modelled by `truthyList` / `truthyStr`.  A raw
metadata dict that is absent or empty (both falsy in the source's `if raw_data:`
checks) is modelled uniformly as `none`.
-/

/-- Exceptions the embedded code can raise: `KeyError` from a direct
dictionary access `d[key]`, and the `RuntimeError` raised explicitly in
`Program.is_episode_in_library`. -/
inductive PyErr where
  | keyError (key : String)
  | runtimeError
deriving Repr, DecidableEq

/-- Python `d[key]` on a field we model as `Option`: the value when the key is
present, `KeyError` when it is absent. -/
def pyGet {α : Type} (o : Option α) (key : String) : Except PyErr α :=
  match o with
  | some v => .ok v
  | none => .error (.keyError key)

/-- Python truthiness for an optional list: `None` and `[]` are falsy. -/
def truthyList {α : Type} : Option (List α) → Option (List α)
  | some l => if l.isEmpty then none else some l
  | none => none

/-- Python truthiness for an optional string: `None` and `""` are falsy. -/
def truthyStr : Option String → Option String
  | some s => if s.isEmpty then none else some s
  | none => none

/-- The `Airing.Raw.program` sub-object; the source reads its `title` key
directly (`program_info['title']`, line 367 / 199). -/
structure RawProgram where
  title : Option String
deriving Repr, DecidableEq

/-- The `Airing.Raw` provider metadata block: `title` and `program` keys.
`none` for the whole block models both a missing `Raw` key and a falsy
(empty) value, which the source treats identically (`if raw_data:`). -/
structure RawMeta where
  title : Option String
  program : Option RawProgram
deriving Repr, DecidableEq

/-- The `Airing` metadata block, with the keys the engine reads. -/
structure Airing where
  title : Option String
  categories : Option (List String)
  directors : Option (List String)
  seasonNumber : Option Nat
  episodeNumber : Option Nat
  episodeTitle : Option String
  releaseYear : Option Nat
  raw : Option RawMeta
deriving Repr, DecidableEq

/-- One library file or scheduled job record, restricted to the keys the
claims exercise: the `Airing` block and the optional `FileID` key
(`none` = key absent, `some ""` = present but empty). -/
structure ProgramJson where
  airing : Airing
  fileID : Option String
deriving Repr, DecidableEq

/-- One entry of the `/dvr/jobs` schedule; `skipped = none` models a job
record without the `Skipped` key. -/
structure Job where
  skipped : Option Bool
deriving Repr, DecidableEq

/-- The state of the Channels DVR server: what `GET /dvr/files` and
`GET /dvr/jobs` return. -/
structure ChannelsDVRServer where
  files : List ProgramJson
  jobs : List Job
deriving Repr, DecidableEq

/-- `ChannelsDVRServer.get_all_programs_from_library` (line 113): the full
library listing fetched from the server. -/
def get_all_programs_from_library (srv : ChannelsDVRServer) : List ProgramJson :=
  srv.files

/-- Lines 123-124 / 142-143: `if not library_files: library_files =
self.get_all_programs_from_library()`.  A `None` or empty snapshot is falsy,
so the library is fetched fresh. -/
def effectiveLibrary (srv : ChannelsDVRServer) (library_files : Option (List ProgramJson)) :
    List ProgramJson :=
  match truthyList library_files with
  | none => get_all_programs_from_library srv
  | some l => l

/-- `ChannelsDVRServer.get_all_movies_from_library` (lines 119-136): keep the
files whose truthy `Categories` contain `"Movie"`. -/
def get_all_movies_from_library (srv : ChannelsDVRServer)
    (library_files : Option (List ProgramJson)) : List ProgramJson :=
  (effectiveLibrary srv library_files).filter (fun f =>
    match truthyList f.airing.categories with
    | none => false
    | some categories => categories.contains "Movie")

/-- `ChannelsDVRServer.get_all_series_from_library` (lines 138-155): keep the
files whose truthy `Categories` contain `"Series"`. -/
def get_all_series_from_library (srv : ChannelsDVRServer)
    (library_files : Option (List ProgramJson)) : List ProgramJson :=
  (effectiveLibrary srv library_files).filter (fun f =>
    match truthyList f.airing.categories with
    | none => false
    | some categories => categories.contains "Series")

/-- Lines 167-171: the library-movie title used by
`get_one_movie_from_library` — `Raw.title` when the raw block is truthy,
otherwise `None`. -/
def rawMovieTitle (m : ProgramJson) : Option String :=
  match m.airing.raw with
  | none => none
  | some raw_data => raw_data.title

/-- `ChannelsDVRServer.get_one_movie_from_library` (lines 157-177): first
movie whose `Raw.title` equals the requested title (`library_movie_title ==
movie_title`). -/
def get_one_movie_from_library (srv : ChannelsDVRServer) (movie_title : String)
    (library_files : Option (List ProgramJson)) : Option ProgramJson :=
  (get_all_movies_from_library srv library_files).find?
    (fun m => rawMovieTitle m == some movie_title)

/-- `Program._get_title` (lines 356-369): resolved title of a record —
`Raw.program.title` when raw metadata has a truthy `program` sub-object,
otherwise the record's own `Airing['Title']` (a direct access that raises
when absent).  Lines 188-201 of
`get_all_episodes_of_one_series_from_library` duplicate this logic verbatim,
so the same definition serves both. -/
def _get_title (a : Airing) : Except PyErr String :=
  match a.raw with
  | none => pyGet a.title "Title"
  | some raw_info =>
    match raw_info.program with
    | none => pyGet a.title "Title"
    | some program_info => pyGet program_info.title "title"

/-- The loop of `get_all_episodes_of_one_series_from_library` (lines 188-206):
keep the series entries whose resolved title equals `series_title`; a failed
title resolution propagates as the exception the Python loop would raise. -/
def episodesFilter (series_title : String) : List ProgramJson → Except PyErr (List ProgramJson)
  | [] => .ok []
  | s :: rest =>
    match _get_title s.airing with
    | .error e => .error e
    | .ok library_series_title =>
      match episodesFilter series_title rest with
      | .error e => .error e
      | .ok tail => .ok (if library_series_title = series_title then s :: tail else tail)

/-- `ChannelsDVRServer.get_all_episodes_of_one_series_from_library`
(lines 179-206). -/
def get_all_episodes_of_one_series_from_library (srv : ChannelsDVRServer)
    (series_title : String) (library_files : Option (List ProgramJson)) :
    Except PyErr (List ProgramJson) :=
  episodesFilter series_title (get_all_series_from_library srv library_files)

/-- `ChannelsDVRServer.get_one_episode_of_one_series_from_library`
(lines 277-293): first episode of the series whose `SeasonNumber` and
`EpisodeNumber` (both read with `.get`, possibly `None`) equal the given
ones. -/
def get_one_episode_of_one_series_from_library (srv : ChannelsDVRServer)
    (series_title : String) (season_number episode_number : Option Nat)
    (library_files : Option (List ProgramJson)) : Except PyErr (Option ProgramJson) :=
  match get_all_episodes_of_one_series_from_library srv series_title library_files with
  | .error e => .error e
  | .ok all_episodes =>
    .ok (all_episodes.find? (fun le =>
      le.airing.seasonNumber == season_number && le.airing.episodeNumber == episode_number))

/-- `ChannelsDVRServer.get_non_skipped_scheduled_recordings` (lines 271-275):
`[job for job in jobs if not job['Skipped']]` — the direct `['Skipped']`
access raises `KeyError` on a job without that key. -/
def nonSkippedJobs : List Job → Except PyErr (List Job)
  | [] => .ok []
  | job :: rest =>
    match job.skipped with
    | none => .error (.keyError "Skipped")
    | some sk =>
      match nonSkippedJobs rest with
      | .error e => .error e
      | .ok tail => .ok (if sk then tail else job :: tail)

/-- Server-level wrapper of `get_non_skipped_scheduled_recordings`. -/
def get_non_skipped_scheduled_recordings (srv : ChannelsDVRServer) :
    Except PyErr (List Job) :=
  nonSkippedJobs srv.jobs

/-- The `Program` class (lines 314-327): the raw json plus the derived
attributes computed in `__init__`. -/
structure Prog where
  program : ProgramJson
  director : Option String
  episode_number : Option Nat
  episode_title : Option String
  release_year : Option Nat
  season_number : Option Nat
  title : String
deriving Repr, DecidableEq

/-- `Program._get_director_from_json` (lines 329-338): first entry of a
truthy `Directors` list, else `None`. -/
def _get_director_from_json (pj : ProgramJson) : Option String :=
  match pj.airing.directors with
  | some (d :: _) => some d
  | _ => none

/-- `Program.__init__` (lines 319-327): derive the attributes from the json.
Only the title computation (`_get_title`) can raise, and it runs last. -/
def Program.init (pj : ProgramJson) : Except PyErr Prog :=
  match _get_title pj.airing with
  | .error e => .error e
  | .ok title =>
    .ok { program := pj
          director := _get_director_from_json pj
          episode_number := pj.airing.episodeNumber
          episode_title := pj.airing.episodeTitle
          release_year := pj.airing.releaseYear
          season_number := pj.airing.seasonNumber
          title := title }

/-- `Program.is_a_movie` (lines 434-443): truthy `Categories` containing
`"Movie"`. -/
def is_a_movie (self : Prog) : Bool :=
  match truthyList self.program.airing.categories with
  | none => false
  | some categories => categories.contains "Movie"

/-- `Program.is_an_episode` (lines 476-491): with truthy `Categories`,
`"Episode"` present or (`"Series"` present and both numbers not `None`);
otherwise fall back to truthiness of `EpisodeTitle`. -/
def is_an_episode (self : Prog) : Bool :=
  match truthyList self.program.airing.categories with
  | some categories =>
    categories.contains "Episode" ||
      (categories.contains "Series" &&
        self.season_number != none && self.episode_number != none)
  | none =>
    match truthyStr self.program.airing.episodeTitle with
    | some _ => true
    | none => false

/-- `Program.get_program_type` (lines 371-381): start from `None`, overwrite
with `"Episode"` if `is_an_episode`, then with `"Movie"` if `is_a_movie`. -/
def get_program_type (self : Prog) : Option String :=
  let program_type : Option String := none
  let program_type := if is_an_episode self then some "Episode" else program_type
  let program_type := if is_a_movie self then some "Movie" else program_type
  program_type

/-- `Program.is_movie_in_library` (lines 445-461): look the title up with
`get_one_movie_from_library`; on a hit, compare
`library_movie['Airing']['ReleaseYear']` (direct access) with the record's
release year and test `self.director in library_movie['Airing']['Directors']`
(direct access). -/
def is_movie_in_library (srv : ChannelsDVRServer) (self : Prog)
    (library_files : Option (List ProgramJson)) : Except PyErr Bool :=
  match get_one_movie_from_library srv self.title library_files with
  | none => .ok false
  | some library_movie =>
    match library_movie.airing.releaseYear with
    | none => .error (.keyError "ReleaseYear")
    | some ry =>
      let has_same_release_year := some ry == self.release_year
      match library_movie.airing.directors with
      | none => .error (.keyError "Directors")
      | some directors =>
        let has_same_director :=
          match self.director with
          | some d => directors.contains d
          | none => false
        .ok (has_same_release_year && has_same_director)

/-- Python `str.lower()`: lowercase every character of the string. -/
def pyLower (s : String) : String := ⟨s.data.map Char.toLower⟩

/-- `Program.is_episode_in_library` (lines 397-420): look the episode up by
title/season/episode; wrap the hit in `Program` (line 410, outside the
`try`); if the library episode's title is truthy, compare the lowered episode
titles — a candidate without an episode title makes `.lower()` raise inside
the `try`, which the handler turns into `RuntimeError`. -/
def is_episode_in_library (srv : ChannelsDVRServer) (self : Prog)
    (library_files : Option (List ProgramJson)) : Except PyErr Bool :=
  match get_one_episode_of_one_series_from_library srv self.title
      self.season_number self.episode_number library_files with
  | .error e => .error e
  | .ok none => .ok false
  | .ok (some le) =>
    match Program.init le with
    | .error e => .error e
    | .ok library_episode =>
      match truthyStr library_episode.episode_title with
      | none => .ok false
      | some lib_ep_title =>
        match self.episode_title with
        | none => .error .runtimeError
        | some my_ep_title => .ok (pyLower lib_ep_title == pyLower my_ep_title)

/-- Second half of `Program.is_in_library` (lines 391-393): the episode
check, updating the accumulated flag. -/
def episodeStage (srv : ChannelsDVRServer) (self : Prog)
    (library_files : Option (List ProgramJson)) (in_library : Bool) : Except PyErr Bool :=
  if is_an_episode self then
    match is_episode_in_library srv self library_files with
    | .error e => .error e
    | .ok ep_found => .ok (if ep_found then true else in_library)
  else .ok in_library

/-- `Program.is_in_library` (lines 383-395): run the movie check when
`is_a_movie`, then the episode check when `is_an_episode`; either hit sets
the flag. -/
def is_in_library (srv : ChannelsDVRServer) (self : Prog)
    (library_files : Option (List ProgramJson)) : Except PyErr Bool :=
  if is_a_movie self then
    match is_movie_in_library srv self library_files with
    | .error e => .error e
    | .ok movie_found =>
      episodeStage srv self library_files (if movie_found then true else false)
  else
    episodeStage srv self library_files false

/-- `Program.is_recording_in_progress` (lines 463-474): direct access
`self.program['FileID']`, then truthiness of the value. -/
def is_recording_in_progress (self : Prog) : Except PyErr Bool :=
  match self.program.fileID with
  | none => .error (.keyError "FileID")
  | some file_id => .ok (!file_id.isEmpty)

/-! ### Concrete records used to exercise the functions -/

/-- A server whose own library and schedule are empty; snapshots are passed
explicitly in the tests below. -/
def srv0 : ChannelsDVRServer := ⟨[], []⟩

/-- An `Airing` with every optional key absent. -/
def emptyAiring : Airing := ⟨none, none, none, none, none, none, none, none⟩

/-- Library movie "Dune" carrying `Raw.title` but no `ReleaseYear` key. -/
def ent1 : ProgramJson :=
  ⟨⟨some "Dune", some ["Movie"], some ["David Lynch"], none, none, none, none,
    some ⟨some "Dune", none⟩⟩, none⟩

def lib1 : List ProgramJson := [ent1]

/-- Library movie "Dune" with `Raw.title`, `ReleaseYear` and `Directors`. -/
def ent1b : ProgramJson :=
  ⟨⟨some "Dune", some ["Movie"], some ["David Lynch"], none, none, none, some 1984,
    some ⟨some "Dune", none⟩⟩, none⟩

def lib1b : List ProgramJson := [ent1b]

/-- Candidate movie "Dune" (1984, David Lynch). -/
def cand1 : Prog :=
  ⟨⟨⟨some "Dune", some ["Movie"], some ["David Lynch"], none, none, none, some 1984, none⟩,
    none⟩, some "David Lynch", none, none, some 1984, none, "Dune"⟩

/-- Library episode of "Show" S2E5 whose `EpisodeTitle` key is absent. -/
def ent2 : ProgramJson :=
  ⟨⟨some "Show", some ["Series"], none, some 2, some 5, none, none, none⟩, none⟩

def lib2 : List ProgramJson := [ent2]

/-- Candidate episode "Show" S2E5 with episode title "Finale". -/
def cand2l : Prog :=
  ⟨⟨⟨some "Show", some ["Series"], none, some 2, some 5, some "Finale", none, none⟩, none⟩,
    none, some 5, some "Finale", none, some 2, "Show"⟩

/-- Library episode of "Show" S2E5 with episode title "Finale". -/
def ent2w : ProgramJson :=
  ⟨⟨some "Show", some ["Series"], none, some 2, some 5, some "Finale", none, none⟩, none⟩

def lib2w : List ProgramJson := [ent2w]

/-- Candidate episode "Show" S2E5 whose own episode title is absent. -/
def cand2w : Prog :=
  ⟨⟨⟨some "Show", some ["Series"], none, some 2, some 5, none, none, none⟩, none⟩,
    none, some 5, none, none, some 2, "Show"⟩

/-- A job record without the `Skipped` key. -/
def job3 : Job := ⟨none⟩

/-- A scheduled recording without the `FileID` key. -/
def prog3 : Prog := ⟨⟨emptyAiring, none⟩, none, none, none, none, none, ""⟩

/-- Library movie "Dune" whose display title is present but whose raw
metadata is absent, so `rawMovieTitle` is `None`. -/
def ent4 : ProgramJson :=
  ⟨⟨some "Dune", some ["Movie"], some ["David Lynch"], none, none, none, some 1984, none⟩, none⟩

def lib4 : List ProgramJson := [ent4]

/-- A record categorised as both `"Movie"` and `"Series"` with season/episode
numbers: both `is_a_movie` and `is_an_episode` hold. -/
def cand5 : Prog :=
  ⟨⟨⟨some "Show", some ["Movie", "Series"], none, some 1, some 2, some "Pilot", none, none⟩,
    none⟩, none, some 2, some "Pilot", none, some 1, "Show"⟩

/-- Library episode of "Show" S1E2 "Pilot" (a series entry, not a movie). -/
def ent5 : ProgramJson :=
  ⟨⟨some "Show", some ["Series"], none, some 1, some 2, some "Pilot", none, none⟩, none⟩

def lib5 : List ProgramJson := [ent5]

/-- An `Airing` whose display title is "Show" and whose raw metadata is
absent. -/
def airing6 : Airing := ⟨some "Show", none, none, none, none, none, none, none⟩

/-- A record with no `Categories` and episode title "Pilot". -/
def pj7 : ProgramJson :=
  ⟨⟨some "Show", none, none, none, none, some "Pilot", none, none⟩, none⟩

/-- The `Program` derived from `pj7`. -/
def self7 : Prog := ⟨pj7, none, none, some "Pilot", none, none, "Show"⟩

/-- A record categorised as both `"Episode"` and `"Movie"`. -/
def prog8 : Prog :=
  ⟨⟨⟨some "X", some ["Episode", "Movie"], none, none, none, none, none, none⟩, none⟩,
    none, none, none, none, none, "X"⟩

/-- Library episode of "Show" S2E5 with episode title "Finale". -/
def ent9 : ProgramJson :=
  ⟨⟨some "Show", some ["Series"], none, some 2, some 5, some "Finale", none, none⟩, none⟩

def lib9 : List ProgramJson := [ent9]

/-- Candidate episode "Show" S2E5 with episode title "FINALE" (different
case). -/
def cand9 : Prog :=
  ⟨⟨⟨some "Show", some ["Series"], none, some 2, some 5, some "FINALE", none, none⟩, none⟩,
    none, some 5, some "FINALE", none, some 2, "Show"⟩

/-! ### Helper lemmas -/

/-- Every entry kept by the episode filter has resolved title equal to the
requested series title (and in particular its title resolution succeeds). -/
theorem episodesFilter_mem {t : String} : ∀ {xs r : List ProgramJson},
    episodesFilter t xs = .ok r → ∀ {le : ProgramJson}, le ∈ r →
    _get_title le.airing = .ok t := by
  intro xs
  induction xs with
  | nil =>
    intro r h le hm
    simp only [episodesFilter, Except.ok.injEq] at h
    subst h
    cases hm
  | cons s rest ih =>
    intro r h le hm
    rw [episodesFilter] at h
    cases hg : _get_title s.airing with
    | error e => rw [hg] at h; cases h
    | ok lt =>
      rw [hg] at h
      cases ht : episodesFilter t rest with
      | error e => rw [ht] at h; cases h
      | ok tail =>
        rw [ht] at h
        simp only [Except.ok.injEq] at h
        subst h
        by_cases hlt : lt = t
        · rw [if_pos hlt] at hm
          rcases List.mem_cons.mp hm with hEq | hm
          · subst hEq; rw [hg, hlt]
          · exact ih ht hm
        · rw [if_neg hlt] at hm
          exact ih ht hm

/-- What a successful single-episode lookup guarantees about the entry it
returns: its resolved title, season number and episode number equal the
requested ones, and wrapping it in `Program` succeeds. -/
theorem get_one_episode_spec {srv : ChannelsDVRServer} {t : String}
    {sn en : Option Nat} {lf : Option (List ProgramJson)} {le : ProgramJson}
    (h : get_one_episode_of_one_series_from_library srv t sn en lf = .ok (some le)) :
    _get_title le.airing = .ok t ∧
    le.airing.seasonNumber = sn ∧ le.airing.episodeNumber = en ∧
    Program.init le = .ok
      { program := le, director := _get_director_from_json le,
        episode_number := le.airing.episodeNumber,
        episode_title := le.airing.episodeTitle,
        release_year := le.airing.releaseYear,
        season_number := le.airing.seasonNumber, title := t } := by
  rw [get_one_episode_of_one_series_from_library] at h
  cases heps : get_all_episodes_of_one_series_from_library srv t lf with
  | error e => rw [heps] at h; cases h
  | ok eps =>
    rw [heps] at h
    simp only [Except.ok.injEq] at h
    have hmem := List.mem_of_find?_eq_some h
    have hp := List.find?_some h
    simp only [Bool.and_eq_true, beq_iff_eq] at hp
    have htitle : _get_title le.airing = .ok t := episodesFilter_mem heps hmem
    refine ⟨htitle, hp.1, hp.2, ?_⟩
    rw [Program.init, htitle]

/-- Behaviour of the episode matcher once the coarse lookup has found a
library entry: it depends only on the truthiness of the entry's episode title
and on the candidate's episode title. -/
theorem is_episode_in_library_of_found {srv : ChannelsDVRServer} {self : Prog}
    {lf : Option (List ProgramJson)} {le : ProgramJson}
    (h : get_one_episode_of_one_series_from_library srv self.title
      self.season_number self.episode_number lf = .ok (some le)) :
    is_episode_in_library srv self lf =
      match truthyStr le.airing.episodeTitle with
      | none => .ok false
      | some lib_ep_title =>
        match self.episode_title with
        | none => .error .runtimeError
        | some my_ep_title => .ok (pyLower lib_ep_title == pyLower my_ep_title) := by
  obtain ⟨_, _, _, hinit⟩ := get_one_episode_spec h
  simp only [is_episode_in_library, h, hinit]

/-! ### Claim theorems -/

/-- C6: the resolved title equals the nested raw metadata's `program.title`
when raw metadata exists and contains a program object; otherwise it equals
the record's own display title, both when raw metadata exists without a
`program` sub-object and when raw metadata is absent entirely. -/
theorem c6_title_resolution_fallback (a : Airing) (dt : String) (h : a.title = some dt) :
    (a.raw = none → _get_title a = .ok dt) ∧
    (∀ r : RawMeta, a.raw = some r → r.program = none → _get_title a = .ok dt) ∧
    (∀ (r : RawMeta) (pgm : RawProgram) (t : String),
      a.raw = some r → r.program = some pgm → pgm.title = some t →
      _get_title a = .ok t) := by
  refine ⟨fun hr => ?_, fun r hr hp => ?_, fun r pgm t hr hp ht => ?_⟩
  · simp [_get_title, hr, h, pyGet]
  · simp [_get_title, hr, hp, h, pyGet]
  · simp [_get_title, hr, hp, ht, pyGet]

/-- Witness for C6 at a record with display title "Show" and no raw
metadata. -/
theorem c6_witness : _get_title airing6 = .ok "Show" :=
  (c6_title_resolution_fallback airing6 "Show" rfl).1 rfl

/-- C8: when both the episode test and the movie test hold,
`get_program_type` returns `"Movie"` (the movie test is evaluated last and
its write wins); when neither holds it returns `None`. -/
theorem c8_classify_last_write_wins (self : Prog) :
    (is_an_episode self = true → is_a_movie self = true →
      get_program_type self = some "Movie") ∧
    (is_an_episode self = false → is_a_movie self = false →
      get_program_type self = none) := by
  constructor <;> intro h1 h2 <;> simp [get_program_type, h1, h2]

/-- Witness for C8 at a record categorised as both `"Episode"` and
`"Movie"`. -/
theorem c8_witness : get_program_type prog8 = some "Movie" :=
  (c8_classify_last_write_wins prog8).1 rfl rfl

/-- C10: an explicitly supplied empty library snapshot is falsy, so the
filters (and the movie lookup built on them) behave exactly as if no
snapshot had been supplied: the full library is fetched from the server. -/
theorem c10_empty_snapshot_refetches (srv : ChannelsDVRServer) :
    get_all_movies_from_library srv (some []) = get_all_movies_from_library srv none ∧
    get_all_series_from_library srv (some []) = get_all_series_from_library srv none ∧
    (∀ t, get_one_movie_from_library srv t (some []) =
      get_one_movie_from_library srv t none) ∧
    effectiveLibrary srv (some []) = get_all_programs_from_library srv :=
  ⟨rfl, rfl, fun _ => rfl, rfl⟩

/-- C3 counterexample: `is_recording_in_progress` on a record without the
`FileID` key raises `KeyError`, and the not-skipped job filter on a job
without the `Skipped` key raises `KeyError` — neither treats the missing
field as absent/false. -/
theorem c3_counterexample :
    prog3.program.fileID = none ∧
    is_recording_in_progress prog3 = .error (.keyError "FileID") ∧
    job3.skipped = none ∧
    get_non_skipped_scheduled_recordings ⟨[], [job3]⟩ = .error (.keyError "Skipped") :=
  ⟨rfl, rfl, rfl, rfl⟩

/-- C3 amended: both operations read the key with a direct access — when the
key is missing they raise `KeyError`; when it is present they apply Python
truthiness to the value. -/
theorem c3_direct_access_raises (p : Prog) (j : Job) (rest : List Job) :
    (p.program.fileID = none →
      is_recording_in_progress p = .error (.keyError "FileID")) ∧
    (∀ s, p.program.fileID = some s → is_recording_in_progress p = .ok (!s.isEmpty)) ∧
    (j.skipped = none → nonSkippedJobs (j :: rest) = .error (.keyError "Skipped")) ∧
    (∀ b tail, j.skipped = some b → nonSkippedJobs rest = .ok tail →
      nonSkippedJobs (j :: rest) = .ok (if b then tail else j :: tail)) := by
  refine ⟨fun h => ?_, fun s h => ?_, fun h => ?_, fun b tail hb ht => ?_⟩ <;>
    simp [is_recording_in_progress, nonSkippedJobs, *]

/-- Witness for C3 (amended) at a record without `FileID` and a job without
`Skipped`. -/
theorem c3_witness :
    is_recording_in_progress prog3 = .error (.keyError "FileID") ∧
    nonSkippedJobs [job3] = .error (.keyError "Skipped") :=
  ⟨(c3_direct_access_raises prog3 job3 []).1 rfl,
   (c3_direct_access_raises prog3 job3 []).2.2.1 rfl⟩

/-- C1 counterexample: the candidate's title matches a library movie whose
`ReleaseYear` key is absent — instead of evaluating the year condition to
false, the match raises `KeyError`. -/
theorem c1_counterexample :
    cand1.release_year = some 1984 ∧ cand1.director = some "David Lynch" ∧
    get_one_movie_from_library srv0 cand1.title (some lib1) = some ent1 ∧
    ent1.airing.releaseYear = none ∧
    is_movie_in_library srv0 cand1 (some lib1) = .error (.keyError "ReleaseYear") :=
  ⟨rfl, rfl, rfl, rfl, rfl⟩

/-- C1 amended: the movie match returns true exactly when the single library
entry found by the title lookup has a present `ReleaseYear` equal to the
candidate's and a present `Directors` list containing the candidate's
director; absence of a field on the CANDIDATE side makes the condition false
without raising, but absence of `ReleaseYear` or `Directors` on the matched
LIBRARY entry raises `KeyError` instead of evaluating to false. -/
theorem c1_movie_match_behaviour (srv : ChannelsDVRServer) (self : Prog)
    (lf : Option (List ProgramJson)) :
    (get_one_movie_from_library srv self.title lf = none →
      is_movie_in_library srv self lf = .ok false) ∧
    (∀ m, get_one_movie_from_library srv self.title lf = some m →
      ((is_movie_in_library srv self lf = .ok true ↔
         (∃ ry, m.airing.releaseYear = some ry ∧ self.release_year = some ry) ∧
         (∃ ds d, m.airing.directors = some ds ∧ self.director = some d ∧ d ∈ ds)) ∧
       (m.airing.releaseYear = none →
         is_movie_in_library srv self lf = .error (.keyError "ReleaseYear")) ∧
       (m.airing.releaseYear ≠ none → m.airing.directors = none →
         is_movie_in_library srv self lf = .error (.keyError "Directors")) ∧
       (m.airing.releaseYear ≠ none → m.airing.directors ≠ none →
         (self.release_year = none ∨ self.director = none) →
         is_movie_in_library srv self lf = .ok false))) := by
  constructor
  · intro h; simp [is_movie_in_library, h]
  · intro m h
    refine ⟨?_, ?_, ?_, ?_⟩
    · cases hry : m.airing.releaseYear with
      | none => simp [is_movie_in_library, h, hry]
      | some ry =>
        cases hd : m.airing.directors with
        | none => simp [is_movie_in_library, h, hry, hd]
        | some ds =>
          cases hsd : self.director with
          | none => simp [is_movie_in_library, h, hry, hd, hsd]
          | some d =>
            simp [is_movie_in_library, h, hry, hd, hsd]
            intro _
            exact eq_comm
    · intro hryn; simp [is_movie_in_library, h, hryn]
    · intro hryn hdn
      cases hry : m.airing.releaseYear with
      | none => exact absurd hry hryn
      | some ry => simp [is_movie_in_library, h, hry, hdn]
    · intro hryn hdn habs
      cases hry : m.airing.releaseYear with
      | none => exact absurd hry hryn
      | some ry =>
        cases hd : m.airing.directors with
        | none => exact absurd hd hdn
        | some ds =>
          rcases habs with hrel | hdir
          · cases hsd : self.director with
            | none => simp [is_movie_in_library, h, hry, hd, hsd]
            | some d => simp [is_movie_in_library, h, hry, hd, hsd, hrel]
          · simp [is_movie_in_library, h, hry, hd, hdir]

/-- Witness for C1 (amended) at a candidate and a library entry that agree on
raw title, release year and director. -/
theorem c1_witness : is_movie_in_library srv0 cand1 (some lib1b) = .ok true :=
  (((c1_movie_match_behaviour srv0 cand1 (some lib1b)).2 ent1b rfl).1).mpr
    ⟨⟨1984, rfl, rfl⟩, ⟨["David Lynch"], "David Lynch", rfl, rfl, by simp⟩⟩

/-- C4 counterexample: a library movie whose title is available through the
title-resolution fallback (display title "Dune", raw metadata absent) is NOT
eligible for the movie-title comparison: the lookup reads only `Raw.title`
(`None` here) and finds nothing. -/
theorem c4_counterexample :
    _get_title ent4.airing = .ok "Dune" ∧
    ent4 ∈ get_all_movies_from_library srv0 (some lib4) ∧
    get_one_movie_from_library srv0 "Dune" (some lib4) = none ∧
    is_movie_in_library srv0 cand1 (some lib4) = .ok false := by
  refine ⟨rfl, ?_, rfl, rfl⟩
  exact List.Mem.head _

/-- C4 amended: the movie match selects the first library movie (in snapshot
order) whose RAW metadata title (`Raw.title`, `None` when raw metadata is
absent) equals the candidate's resolved title exactly and case-sensitively;
entries whose raw title is absent are never eligible, whatever their
display title resolves to. -/
theorem c4_movie_lookup_uses_raw_title (srv : ChannelsDVRServer) (t : String)
    (lf : Option (List ProgramJson)) :
    (∀ m, get_one_movie_from_library srv t lf = some m →
      m ∈ get_all_movies_from_library srv lf ∧ rawMovieTitle m = some t ∧
      ∃ pre post, get_all_movies_from_library srv lf = pre ++ m :: post ∧
        ∀ m' ∈ pre, rawMovieTitle m' ≠ some t) ∧
    ((∀ m ∈ get_all_movies_from_library srv lf, rawMovieTitle m ≠ some t) →
      get_one_movie_from_library srv t lf = none) := by
  constructor
  · intro m h
    have hp := List.find?_some h
    have hmem := List.mem_of_find?_eq_some h
    rw [beq_iff_eq] at hp
    refine ⟨hmem, hp, ?_⟩
    rcases List.find?_eq_some.mp h with ⟨hpm, pre, post, heq, hpre⟩
    refine ⟨pre, post, heq, fun m' hm' => ?_⟩
    have hm'' := hpre m' hm'
    simpa [beq_iff_eq] using hm''
  · intro hall
    apply List.find?_eq_none.mpr
    intro m hm
    simpa [beq_iff_eq] using hall m hm

/-- Witness for C4 (amended) at a library entry found by its raw title. -/
theorem c4_witness :
    ent1 ∈ get_all_movies_from_library srv0 (some lib1) ∧
    rawMovieTitle ent1 = some "Dune" :=
  ⟨((c4_movie_lookup_uses_raw_title srv0 "Dune" (some lib1)).1 ent1 rfl).1,
   ((c4_movie_lookup_uses_raw_title srv0 "Dune" (some lib1)).1 ent1 rfl).2.1⟩

/-- C2 counterexample: the candidate's episode title is present and a library
entry matches on title/season/episode but has no `EpisodeTitle` — the match
silently returns false instead of raising the data-integrity error. -/
theorem c2_counterexample :
    cand2l.episode_title = some "Finale" ∧
    get_one_episode_of_one_series_from_library srv0 cand2l.title
      cand2l.season_number cand2l.episode_number (some lib2) = .ok (some ent2) ∧
    ent2.airing.episodeTitle = none ∧
    is_episode_in_library srv0 cand2l (some lib2) = .ok false :=
  ⟨rfl, rfl, rfl, rfl⟩

/-- C2 amended: after a title/season/episode match, a missing episode title
on the LIBRARY side silently yields false; the loud `RuntimeError` is raised
only when the library side's episode title is truthy and the CANDIDATE's
episode title is absent. -/
theorem c2_episode_title_error_asymmetry (srv : ChannelsDVRServer) (self : Prog)
    (lf : Option (List ProgramJson)) (le : ProgramJson)
    (h : get_one_episode_of_one_series_from_library srv self.title
      self.season_number self.episode_number lf = .ok (some le)) :
    (truthyStr le.airing.episodeTitle = none →
      is_episode_in_library srv self lf = .ok false) ∧
    (∀ lt, truthyStr le.airing.episodeTitle = some lt → self.episode_title = none →
      is_episode_in_library srv self lf = .error .runtimeError) := by
  have hfound := is_episode_in_library_of_found h
  constructor
  · intro ht; rw [hfound, ht]
  · intro lt ht hself; rw [hfound, ht, hself]

/-- Witness for C2 (amended): candidate without an episode title against a
matching library entry with one — `RuntimeError`. -/
theorem c2_witness : is_episode_in_library srv0 cand2w (some lib2w) = .error .runtimeError :=
  (c2_episode_title_error_asymmetry srv0 cand2w (some lib2w) ent2w rfl).2 "Finale" rfl rfl

/-- C9: the coarse lookup matches title, season number and episode number by
exact (case-sensitive) equality, and once both episode titles are present the
result is exactly equality of the lowercased episode titles — hence invariant
under changing the letter case of either. -/
theorem c9_episode_title_case_insensitive (srv : ChannelsDVRServer) (self : Prog)
    (lf : Option (List ProgramJson)) (le : ProgramJson)
    (h : get_one_episode_of_one_series_from_library srv self.title
      self.season_number self.episode_number lf = .ok (some le)) :
    (_get_title le.airing = .ok self.title ∧
     le.airing.seasonNumber = self.season_number ∧
     le.airing.episodeNumber = self.episode_number) ∧
    (∀ lt st, le.airing.episodeTitle = some lt → lt ≠ "" →
      self.episode_title = some st →
      is_episode_in_library srv self lf = .ok (pyLower lt == pyLower st)) := by
  obtain ⟨ht, hs, he, _⟩ := get_one_episode_spec h
  refine ⟨⟨ht, hs, he⟩, ?_⟩
  intro lt st hlt hne hst
  have hfound := is_episode_in_library_of_found h
  have htr : truthyStr le.airing.episodeTitle = some lt := by
    rw [hlt]
    simp [truthyStr, String.isEmpty_iff, hne]
  rw [hfound, htr, hst]

/-- Witness for C9 at the spec scenario: "Show" S2E5, library episode title
"Finale", candidate episode title "FINALE". -/
theorem c9_witness : is_episode_in_library srv0 cand9 (some lib9) = .ok true := by
  have h := (c9_episode_title_case_insensitive srv0 cand9 (some lib9) ent9 rfl).2
    "Finale" "FINALE" rfl (by decide) rfl
  rw [h]
  have hl : (pyLower "Finale" == pyLower "FINALE") = true := by decide
  rw [hl]

/-- C5 counterexample: a record classified as `"Movie"` (by the last-write
tie-break) for which the movie matcher finds nothing is still reported as in
the library because the episode matcher also runs and hits. -/
theorem c5_counterexample :
    get_program_type cand5 = some "Movie" ∧
    is_movie_in_library srv0 cand5 (some lib5) = .ok false ∧
    is_episode_in_library srv0 cand5 (some lib5) = .ok true ∧
    is_in_library srv0 cand5 (some lib5) = .ok true :=
  ⟨rfl, rfl, rfl, rfl⟩

/-- C5 amended: `is_in_library` runs the movie test and the episode test
independently (either hit sets the flag), rather than dispatching on the
single classification; for a record that passes neither test (Unclassified)
it returns false unconditionally. -/
theorem c5_in_library_checks_both (srv : ChannelsDVRServer) (self : Prog)
    (lf : Option (List ProgramJson)) :
    (get_program_type self = none → is_in_library srv self lf = .ok false) ∧
    (is_a_movie self = false → is_an_episode self = true →
      is_in_library srv self lf = is_episode_in_library srv self lf) ∧
    (is_a_movie self = true → is_an_episode self = false →
      is_in_library srv self lf = is_movie_in_library srv self lf) ∧
    (∀ b c, is_a_movie self = true → is_an_episode self = true →
      is_movie_in_library srv self lf = .ok b →
      is_episode_in_library srv self lf = .ok c →
      is_in_library srv self lf = .ok (b || c)) := by
  refine ⟨?_, ?_, ?_, ?_⟩
  · intro h
    have hm : is_a_movie self = false := by
      cases hmv : is_a_movie self with
      | false => rfl
      | true => simp [get_program_type, hmv] at h
    have he : is_an_episode self = false := by
      cases hep : is_an_episode self with
      | false => rfl
      | true => simp [get_program_type, hep, hm] at h
    simp [is_in_library, hm, episodeStage, he]
  · intro hm he
    simp [is_in_library, hm, episodeStage, he]
    cases hr : is_episode_in_library srv self lf with
    | error e => simp [hr]
    | ok b => simp [hr]
  · intro hm he
    simp [is_in_library, hm, episodeStage, he]
    cases hr : is_movie_in_library srv self lf with
    | error e => simp [hr]
    | ok b => simp [hr]
  · intro b c hm he hmr her
    simp [is_in_library, hm, hmr, episodeStage, he, her]
    cases b <;> cases c <;> simp

/-- Witness for C5 (amended) at an Unclassified record. -/
theorem c5_witness : is_in_library srv0 prog3 (some lib5) = .ok false :=
  (c5_in_library_checks_both srv0 prog3 (some lib5)).1 rfl

/-- C7: `is_an_episode` holds iff, with truthy categories, the categories
contain "Episode" or contain "Series" with both numbers present; with falsy
(absent or empty) categories, iff the episode title is truthy.  Consequently
a record with absent categories and a truthy episode title is an episode and
not a movie. -/
theorem c7_is_an_episode_characterisation (pj : ProgramJson) (self : Prog)
    (h : Program.init pj = .ok self) :
    (is_an_episode self = true ↔
      (∃ cats, pj.airing.categories = some cats ∧ cats ≠ [] ∧
        ("Episode" ∈ cats ∨ ("Series" ∈ cats ∧
          pj.airing.seasonNumber ≠ none ∧ pj.airing.episodeNumber ≠ none))) ∨
      ((pj.airing.categories = none ∨ pj.airing.categories = some []) ∧
        ∃ et, pj.airing.episodeTitle = some et ∧ et ≠ "")) ∧
    ((pj.airing.categories = none ∨ pj.airing.categories = some []) →
      (∃ et, pj.airing.episodeTitle = some et ∧ et ≠ "") →
      is_an_episode self = true ∧ is_a_movie self = false) := by
  cases hT : _get_title pj.airing with
  | error e => rw [Program.init, hT] at h; cases h
  | ok t =>
    rw [Program.init, hT] at h
    simp only [Except.ok.injEq] at h
    subst h
    constructor
    · cases hc : pj.airing.categories with
      | none =>
        cases het : pj.airing.episodeTitle with
        | none => simp [is_an_episode, truthyList, truthyStr, hc, het]
        | some et =>
          by_cases he : et = ""
          · subst he
            simp [is_an_episode, truthyList, truthyStr, hc, het]
            all_goals decide
          · simp [is_an_episode, truthyList, truthyStr, hc, het,
              String.isEmpty_iff, he]
      | some cats =>
        cases cats with
        | nil =>
          cases het : pj.airing.episodeTitle with
          | none => simp [is_an_episode, truthyList, truthyStr, hc, het]
          | some et =>
            by_cases he : et = ""
            · subst he
              simp [is_an_episode, truthyList, truthyStr, hc, het]
              all_goals decide
            · simp [is_an_episode, truthyList, truthyStr, hc, het,
                String.isEmpty_iff, he]
        | cons c cs =>
          simp [is_an_episode, truthyList, hc, Option.isSome_iff_ne_none]
          tauto
    · intro hcats ⟨et, het, hne⟩
      have hcat' : truthyList pj.airing.categories = (none : Option (List String)) := by
        rcases hcats with hc | hc <;> simp [truthyList, hc]
      constructor
      · simp [is_an_episode, hcat', het, truthyStr, String.isEmpty_iff, hne]
      · simp [is_a_movie, hcat']

/-- Witness for C7 at a record with absent categories and episode title
"Pilot": an episode and not a movie. -/
theorem c7_witness : is_an_episode self7 = true ∧ is_a_movie self7 = false :=
  (c7_is_an_episode_characterisation pj7 self7 rfl).2 (Or.inl rfl)
    ⟨"Pilot", rfl, by decide⟩
